import Mathlib

/-!
Shallow embedding of the scouting-report backend (Express + Mongoose app in
`src/unnamed/part_000`, rate limiting in `src/backend/middleware.js`).

The Mongo collections become lists of records inside a `Store`; each route
handler becomes a pure function from a `Store` (plus the request data the
handler reads) to the post-state paired with an `Except` result mirroring the
HTTP status and message the handler sends.  File storage (the `uploads/`
directory written by multer) is the `storage` list of file names.
-/

/-- HTTP-level error as the handlers send it: a status code and a message. -/
structure ApiError where
  status : Nat
  message : String
deriving DecidableEq, Repr

/-- User document (`userSchema`): email, bcrypt-hashed password, role,
creation time.  The Mongo `_id` is a `Nat` here. -/
structure User where
  id : Nat
  email : String
  password : String
  role : String
  createdAt : Nat
deriving DecidableEq, Repr

/-- Team document (`teamSchema`). -/
structure Team where
  id : Nat
  name : String
  league : String
  createdBy : Nat
  createdAt : Nat
deriving DecidableEq, Repr

/-- Player document (`playerSchema`); `jerseyNumber` is a `String` in the
schema. -/
structure Player where
  id : Nat
  name : String
  position : String
  jerseyNumber : String
  teamId : Nat
  createdAt : Nat
deriving DecidableEq, Repr

/-- Report document (`reportSchema`); `evaluations` is a string map, `notes`
and `sprayChartUrl` are optional. -/
structure Report where
  id : Nat
  playerId : Nat
  scoutId : Nat
  date : Nat
  evaluations : List (String × String)
  notes : Option String
  sprayChartUrl : Option String
  createdAt : Nat
  updatedAt : Nat
deriving DecidableEq, Repr

/-- The whole persistent state: the four Mongo collections plus the set of
files multer has written under `uploads/`. -/
structure Store where
  users : List User
  teams : List Team
  players : List Player
  reports : List Report
  storage : List String
deriving DecidableEq, Repr

/-- DELETE `/api/teams/:id`: `findByIdAndDelete`, then fetch the team's
player ids, delete those players, and delete the reports whose `playerId`
is among the captured ids.  Unknown id: 404, nothing deleted. -/
def deleteTeam (s : Store) (id : Nat) : Store × Except ApiError String :=
  match s.teams.find? (fun t => t.id == id) with
  | none => (s, Except.error ⟨404, "Team not found"⟩)
  | some _ =>
    let playerIds := (s.players.filter (fun p => p.teamId == id)).map Player.id
    ({ s with
        teams := s.teams.filter (fun t => t.id != id),
        players := s.players.filter (fun p => p.teamId != id),
        reports := s.reports.filter (fun r => !(playerIds.contains r.playerId)) },
     Except.ok ("Team and associated data deleted successfully"))

/-- DELETE `/api/players/:id`: `findByIdAndDelete`, then delete the reports
with that `playerId`.  Unknown id: 404, nothing deleted. -/
def deletePlayer (s : Store) (id : Nat) : Store × Except ApiError String :=
  match s.players.find? (fun p => p.id == id) with
  | none => (s, Except.error ⟨404, "Player not found"⟩)
  | some _ =>
    ({ s with
        players := s.players.filter (fun p => p.id != id),
        reports := s.reports.filter (fun r => r.playerId != id) },
     Except.ok ("Player and associated reports deleted successfully"))

/-- Ids of the players belonging to team `tid` in store `s`. -/
def teamPlayerIds (s : Store) (tid : Nat) : List Nat :=
  (s.players.filter (fun p => p.teamId == tid)).map Player.id

/-- A sample store used to instantiate the universally quantified theorems:
one user, one team, two players on the team, two reports on those players
plus one report on an unrelated player id. -/
def demoStore : Store :=
  { users := [⟨1, "coach@x.com", "h", "coach", 0⟩],
    teams := [⟨1, "Tigers", "AA", 1, 0⟩],
    players := [⟨1, "Ann", "C", "7", 1, 0⟩, ⟨2, "Bo", "P", "9", 1, 0⟩],
    reports := [⟨1, 1, 1, 5, [], none, none, 0, 0⟩,
                ⟨2, 2, 1, 6, [], none, none, 0, 0⟩,
                ⟨3, 77, 1, 7, [], none, none, 0, 0⟩],
    storage := [] }

/-- C1: deleting a present team removes the team, every player of that team
and every report of those players while keeping unrelated reports; deleting a
present player removes it and exactly the reports with its id; an unknown id
makes either operation fail with 404 and leave the store unchanged. -/
theorem deleteTeam_deletePlayer_cascade (s : Store) (tid pid : Nat) :
    ((∃ t ∈ s.teams, t.id = tid) →
      (deleteTeam s tid).2 = Except.ok ("Team and associated data deleted successfully") ∧
      (∀ t ∈ (deleteTeam s tid).1.teams, t.id ≠ tid) ∧
      (∀ p ∈ (deleteTeam s tid).1.players, p.teamId ≠ tid) ∧
      (∀ r ∈ (deleteTeam s tid).1.reports, r.playerId ∉ teamPlayerIds s tid) ∧
      (∀ r ∈ s.reports, r.playerId ∉ teamPlayerIds s tid → r ∈ (deleteTeam s tid).1.reports)) ∧
    ((∀ t ∈ s.teams, t.id ≠ tid) →
      deleteTeam s tid = (s, Except.error ⟨404, "Team not found"⟩)) ∧
    ((∃ p ∈ s.players, p.id = pid) →
      (deletePlayer s pid).2 = Except.ok ("Player and associated reports deleted successfully") ∧
      (∀ p ∈ (deletePlayer s pid).1.players, p.id ≠ pid) ∧
      (∀ r ∈ s.reports, (r ∈ (deletePlayer s pid).1.reports ↔ r.playerId ≠ pid))) ∧
    ((∀ p ∈ s.players, p.id ≠ pid) →
      deletePlayer s pid = (s, Except.error ⟨404, "Player not found"⟩)) := by
  constructor
  · rintro ⟨t, ht, rfl⟩
    have hfind : ∃ u, s.teams.find? (fun x => x.id == t.id) = some u := by
      have h : (s.teams.find? (fun x => x.id == t.id)).isSome :=
        List.find?_isSome.mpr ⟨t, ht, beq_self_eq_true t.id⟩
      exact Option.isSome_iff_exists.mp h
    rcases hfind with ⟨u, hu⟩
    refine ⟨?_, ?_, ?_, ?_, ?_⟩
    · simp [deleteTeam, hu]
    · intro x hx
      simp only [deleteTeam, hu] at hx
      have := (List.mem_filter.mp hx).2
      simpa using this
    · intro x hx
      simp only [deleteTeam, hu] at hx
      have := (List.mem_filter.mp hx).2
      simpa using this
    · intro x hx
      simp only [deleteTeam, hu] at hx
      have := (List.mem_filter.mp hx).2
      simpa [teamPlayerIds] using this
    · intro r hr hnot
      simp only [deleteTeam, hu]
      refine List.mem_filter.mpr ⟨hr, ?_⟩
      simpa [teamPlayerIds] using hnot
  refine ⟨?_, ?_, ?_⟩
  · intro hnone
    have : s.teams.find? (fun x => x.id == tid) = none := by
      apply List.find?_eq_none.mpr
      intro x hx
      simpa using hnone x hx
    simp [deleteTeam, this]
  · rintro ⟨p, hp, rfl⟩
    have hfind : ∃ u, s.players.find? (fun x => x.id == p.id) = some u := by
      have h : (s.players.find? (fun x => x.id == p.id)).isSome :=
        List.find?_isSome.mpr ⟨p, hp, beq_self_eq_true p.id⟩
      exact Option.isSome_iff_exists.mp h
    rcases hfind with ⟨u, hu⟩
    refine ⟨?_, ?_, ?_⟩
    · simp [deletePlayer, hu]
    · intro x hx
      simp only [deletePlayer, hu] at hx
      have := (List.mem_filter.mp hx).2
      simpa using this
    · intro r hr
      constructor
      · intro hmem
        simp only [deletePlayer, hu] at hmem
        have := (List.mem_filter.mp hmem).2
        simpa using this
      · intro hne
        simp only [deletePlayer, hu]
        exact List.mem_filter.mpr ⟨hr, by simpa using hne⟩
  · intro hnone
    have : s.players.find? (fun x => x.id == pid) = none := by
      apply List.find?_eq_none.mpr
      intro x hx
      simpa using hnone x hx
    simp [deletePlayer, this]

/-- C1 witness: the cascade theorem applied to the sample store, at a present
team id, a present player id and an absent id for each. -/
theorem deleteTeam_deletePlayer_cascade_witness :
    ((∀ r ∈ (deleteTeam demoStore 1).1.reports, r.playerId ∉ teamPlayerIds demoStore 1) ∧
      deleteTeam demoStore 99 = (demoStore, Except.error ⟨404, "Team not found"⟩)) ∧
    ((∀ r ∈ demoStore.reports, (r ∈ (deletePlayer demoStore 1).1.reports ↔ r.playerId ≠ 1)) ∧
      deletePlayer demoStore 99 = (demoStore, Except.error ⟨404, "Player not found"⟩)) := by
  refine ⟨⟨?_, ?_⟩, ?_, ?_⟩
  · exact ((deleteTeam_deletePlayer_cascade demoStore 1 1).1
      ⟨⟨1, "Tigers", "AA", 1, 0⟩, by simp [demoStore], rfl⟩).2.2.2.1
  · exact (deleteTeam_deletePlayer_cascade demoStore 99 99).2.1 (by decide)
  · exact ((deleteTeam_deletePlayer_cascade demoStore 1 1).2.2.1
      ⟨⟨1, "Ann", "C", "7", 1, 0⟩, by simp [demoStore], rfl⟩).2.2
  · exact (deleteTeam_deletePlayer_cascade demoStore 1 99).2.2.2 (by decide)

/-- POST `/api/auth/login`: look the user up by exact email, then compare the
password via bcrypt (abstracted as the `compare` parameter).  Both failure
branches return the same 400 "Invalid credentials".  On success the handler
returns the user (token generation is not modelled). -/
def login (compare : String → String → Bool) (s : Store)
    (email password : String) : Except ApiError User :=
  match s.users.find? (fun u => u.email == email) with
  | none => Except.error ⟨400, "Invalid credentials"⟩
  | some u =>
    if compare password u.password then Except.ok u
    else Except.error ⟨400, "Invalid credentials"⟩

/-- POST `/api/auth/register`: check the registration code, look for an
existing user by exact email match (no normalization in the source), hash the
password (abstracted as `hash`) and append the new user. -/
def register (hash : String → String) (s : Store)
    (email password registrationCode : String) (freshId now : Nat) :
    Store × Except ApiError User :=
  if registrationCode != "COACH2024" then
    (s, Except.error ⟨400, "Invalid registration code"⟩)
  else
    match s.users.find? (fun u => u.email == email) with
    | some _ => (s, Except.error ⟨400, "User already exists"⟩)
    | none =>
      let u : User := ⟨freshId, email, hash password, "coach", now⟩
      ({ s with users := s.users ++ [u] }, Except.ok u)

/-- C3: a login against an unknown email and a login against a known email
with a wrong password fail with the identical error value — status 400 and
message "Invalid credentials" in both cases. -/
theorem login_generic_invalid_credentials (compare : String → String → Bool)
    (s : Store) (email password : String) :
    (s.users.find? (fun u => u.email == email) = none →
      login compare s email password = Except.error ⟨400, "Invalid credentials"⟩) ∧
    (∀ u, s.users.find? (fun v => v.email == email) = some u →
      compare password u.password = false →
      login compare s email password = Except.error ⟨400, "Invalid credentials"⟩) := by
  constructor
  · intro h
    simp [login, h]
  · intro u hu hcmp
    simp [login, hu, hcmp]

/-- C3 witness: on the sample store, a login with an unknown email and a
login with the right email but a failing password comparison both produce
exactly the 400 "Invalid credentials" error. -/
theorem login_generic_invalid_credentials_witness :
    login (fun p h => p == h) demoStore ("nobody@x.com") "h" =
      Except.error ⟨400, "Invalid credentials"⟩ ∧
    login (fun p h => p == h) demoStore ("coach@x.com") "wrong" =
      Except.error ⟨400, "Invalid credentials"⟩ := by
  constructor
  · exact (login_generic_invalid_credentials (fun p h => p == h) demoStore
      "nobody@x.com" "h").1 (by decide)
  · exact (login_generic_invalid_credentials (fun p h => p == h) demoStore
      "coach@x.com" "wrong").2 ⟨1, "coach@x.com", "h", "coach", 0⟩ (by decide) (by decide)

/-- C4 counterexample: registering "A@x.com" and then "a@x.com" (same letters,
different case) both succeed — the second does NOT fail with a duplicate-user
error, because the duplicate check is an exact case-sensitive match and no
lowercase normalization is performed. -/
theorem register_case_variant_counterexample :
    (register (fun p => p) demoStore ("A@x.com") "pw" "COACH2024" 2 1).2 =
      Except.ok ⟨2, "A@x.com", "pw", "coach", 1⟩ ∧
    (register (fun p => p)
        (register (fun p => p) demoStore ("A@x.com") "pw" "COACH2024" 2 1).1
        "a@x.com" "pw" "COACH2024" 3 2).2 =
      Except.ok ⟨3, "a@x.com", "pw", "coach", 2⟩ := by
  constructor
  · rfl
  · rfl

/-- C4 amended: emails are stored exactly as supplied (no lowercase
normalization) and uniqueness is enforced on the exact string: a second
registration with a byte-identical email fails with "User already exists",
while a registration whose email merely differs in case from every stored
email succeeds and stores the email unchanged. -/
theorem register_exact_match_uniqueness (hash : String → String) (s : Store)
    (email password code : String) (freshId now : Nat) :
    ((∃ u ∈ s.users, u.email = email) → code = "COACH2024" →
      register hash s email password code freshId now =
        (s, Except.error ⟨400, "User already exists"⟩)) ∧
    ((∀ u ∈ s.users, u.email ≠ email) → code = "COACH2024" →
      register hash s email password code freshId now =
        ({ s with users := s.users ++ [⟨freshId, email, hash password, "coach", now⟩] },
         Except.ok ⟨freshId, email, hash password, "coach", now⟩)) := by
  constructor
  · rintro ⟨u, hu, he⟩ rfl
    have h : (s.users.find? (fun v => v.email == email)).isSome :=
      List.find?_isSome.mpr ⟨u, hu, by simp [he]⟩
    rcases Option.isSome_iff_exists.mp h with ⟨v, hv⟩
    simp [register, hv]
  · rintro hnone rfl
    have h : s.users.find? (fun v => v.email == email) = none := by
      apply List.find?_eq_none.mpr
      intro v hv
      simpa using hnone v hv
    simp [register, h]

/-- C4 amended witness: on the sample store (holding "coach@x.com"),
registering "coach@x.com" again fails with the duplicate error, while
registering "COACH@x.com" succeeds even though it is a case variant. -/
theorem register_exact_match_uniqueness_witness :
    register (fun p => p) demoStore ("coach@x.com") "pw" "COACH2024" 2 1 =
      (demoStore, Except.error ⟨400, "User already exists"⟩) ∧
    (register (fun p => p) demoStore ("COACH@x.com") "pw" "COACH2024" 2 1).2 =
      Except.ok ⟨2, "COACH@x.com", "pw", "coach", 1⟩ := by
  constructor
  · exact (register_exact_match_uniqueness (fun p => p) demoStore
      "coach@x.com" "pw" "COACH2024" 2 1).1
      ⟨⟨1, "coach@x.com", "h", "coach", 0⟩, by simp [demoStore], rfl⟩ rfl
  · rw [(register_exact_match_uniqueness (fun p => p) demoStore
      "COACH@x.com" "pw" "COACH2024" 2 1).2 (by decide) rfl]

/-- PUT `/api/reports/:id`: `findByIdAndUpdate` setting date, evaluations,
notes and `updatedAt := Date.now()`; all other fields stay.  Unknown id:
404, nothing changed. -/
def updateReport (s : Store) (id : Nat) (date : Nat)
    (evaluations : List (String × String)) (notes : Option String)
    (now : Nat) : Store × Except ApiError Report :=
  match s.reports.find? (fun r => r.id == id) with
  | none => (s, Except.error ⟨404, "Report not found"⟩)
  | some r =>
    let r' : Report :=
      { r with date := date, evaluations := evaluations, notes := notes,
               updatedAt := now }
    ({ s with reports := s.reports.map (fun x => if x.id == id then r' else x) },
     Except.ok r')

/-- Request body of POST `/api/reports`; `scoutId` is present to model a
client that tries to supply one — the handler's destructuring never reads it. -/
structure ReportBody where
  playerId : Nat
  scoutId : Option Nat
  date : Nat
  evaluations : List (String × String)
  notes : Option String
deriving DecidableEq, Repr

/-- POST `/api/reports`: build the report with `scoutId := req.user.userId`
(the id from the verified token) and save it.  No check that `playerId`
exists. -/
def createReport (s : Store) (tokenUserId : Nat) (b : ReportBody)
    (freshId now : Nat) : Store × Except ApiError Report :=
  let r : Report :=
    { id := freshId, playerId := b.playerId, scoutId := tokenUserId,
      date := b.date, evaluations := b.evaluations, notes := b.notes,
      sprayChartUrl := none, createdAt := now, updatedAt := now }
  ({ s with reports := s.reports ++ [r] }, Except.ok r)

/-- PUT `/api/players/:id`: `findByIdAndUpdate` overwriting name, position,
jerseyNumber and teamId with the client-supplied values; no check that the
new teamId exists.  Unknown id: 404, nothing changed. -/
def updatePlayer (s : Store) (id : Nat)
    (name position jerseyNumber : String) (teamId : Nat) :
    Store × Except ApiError Player :=
  match s.players.find? (fun p => p.id == id) with
  | none => (s, Except.error ⟨404, "Player not found"⟩)
  | some p =>
    let p' : Player :=
      { p with name := name, position := position,
               jerseyNumber := jerseyNumber, teamId := teamId }
    ({ s with players := s.players.map (fun x => if x.id == id then p' else x) },
     Except.ok p')

/-- C6: updating a present report sets exactly date, evaluations, notes and
updatedAt (to `now`, later than createdAt when the clock has advanced) while
playerId, scoutId, createdAt and sprayChartUrl are untouched, and the other
collections and reports are untouched; an unknown id fails with 404 leaving
the store unchanged. -/
theorem updateReport_frame (s : Store) (id date now : Nat)
    (evaluations : List (String × String)) (notes : Option String) :
    (∀ r, s.reports.find? (fun x => x.id == id) = some r →
      (updateReport s id date evaluations notes now).2 =
        Except.ok { r with date := date, evaluations := evaluations,
                           notes := notes, updatedAt := now } ∧
      (∀ r', (updateReport s id date evaluations notes now).2 = Except.ok r' →
        r'.playerId = r.playerId ∧ r'.scoutId = r.scoutId ∧
        r'.createdAt = r.createdAt ∧ r'.sprayChartUrl = r.sprayChartUrl ∧
        r'.date = date ∧ r'.evaluations = evaluations ∧ r'.notes = notes ∧
        r'.updatedAt = now ∧ (r.createdAt < now → r'.createdAt < r'.updatedAt)) ∧
      (updateReport s id date evaluations notes now).1.users = s.users ∧
      (updateReport s id date evaluations notes now).1.teams = s.teams ∧
      (updateReport s id date evaluations notes now).1.players = s.players ∧
      (updateReport s id date evaluations notes now).1.storage = s.storage ∧
      (∀ x ∈ s.reports, x.id ≠ id →
        x ∈ (updateReport s id date evaluations notes now).1.reports)) ∧
    (s.reports.find? (fun x => x.id == id) = none →
      updateReport s id date evaluations notes now =
        (s, Except.error ⟨404, "Report not found"⟩)) := by
  constructor
  · intro r hr
    refine ⟨?_, ?_, ?_, ?_, ?_, ?_, ?_⟩
    · simp [updateReport, hr]
    · intro r' hr'
      simp only [updateReport, hr] at hr'
      cases hr'
      refine ⟨rfl, rfl, rfl, rfl, rfl, rfl, rfl, rfl, ?_⟩
      intro hlt
      simpa using hlt
    · simp [updateReport, hr]
    · simp [updateReport, hr]
    · simp [updateReport, hr]
    · simp [updateReport, hr]
    · intro x hx hne
      simp only [updateReport, hr]
      have : (fun y : Report => if y.id == id then
          { r with date := date, evaluations := evaluations,
                   notes := notes, updatedAt := now } else y) x = x := by
        simp [hne]
      exact this ▸ List.mem_map_of_mem _ hx
  · intro h
    simp [updateReport, h]

/-- C6 witness: on the sample store, updating report 1 returns it with the
new date/evaluations/notes, preserved playerId/scoutId/createdAt and
updatedAt 9 (later than its createdAt 0); updating absent id 99 fails with
404 and leaves the store unchanged. -/
theorem updateReport_frame_witness :
    (updateReport demoStore 1 8 [("power", "60")] (some ("n")) 9).2 =
      Except.ok ⟨1, 1, 1, 8, [("power", "60")], some ("n"), none, 0, 9⟩ ∧
    updateReport demoStore 99 8 [] none 9 =
      (demoStore, Except.error ⟨404, "Report not found"⟩) := by
  constructor
  · exact ((updateReport_frame demoStore 1 8 9 [("power", "60")] (some ("n"))).1
      ⟨1, 1, 1, 5, [], none, none, 0, 0⟩ (by rfl)).1
  · exact (updateReport_frame demoStore 99 8 9 [] none).2 (by rfl)

/-- C8: the created report's scoutId is always the token's userId, whatever
scoutId the request body carries, and creation succeeds even when no player
with the supplied playerId exists in the store. -/
theorem createReport_scoutId_from_token (s : Store) (tokenUserId : Nat)
    (b : ReportBody) (freshId now : Nat) :
    (createReport s tokenUserId b freshId now).2 =
      Except.ok { id := freshId, playerId := b.playerId, scoutId := tokenUserId,
                  date := b.date, evaluations := b.evaluations, notes := b.notes,
                  sprayChartUrl := none, createdAt := now, updatedAt := now } ∧
    (∀ r, (createReport s tokenUserId b freshId now).2 = Except.ok r →
      r.scoutId = tokenUserId) ∧
    ((∀ p ∈ s.players, p.id ≠ b.playerId) →
      ∃ r, (createReport s tokenUserId b freshId now).2 = Except.ok r ∧
        r ∈ (createReport s tokenUserId b freshId now).1.reports) := by
  refine ⟨rfl, ?_, ?_⟩
  · intro r hr
    cases hr
    rfl
  · intro _
    exact ⟨_, rfl, by simp [createReport]⟩

/-- C8 witness: a body supplying scoutId 55 and an unknown playerId 42 still
yields a report whose scoutId is the token's id 7, and it is stored. -/
theorem createReport_scoutId_from_token_witness :
    (createReport demoStore 7 ⟨42, some 55, 3, [], none⟩ 4 9).2 =
      Except.ok ⟨4, 42, 7, 3, [], none, none, 9, 9⟩ ∧
    ∃ r, (createReport demoStore 7 ⟨42, some 55, 3, [], none⟩ 4 9).2 =
        Except.ok r ∧
      r ∈ (createReport demoStore 7 ⟨42, some 55, 3, [], none⟩ 4 9).1.reports := by
  constructor
  · exact (createReport_scoutId_from_token demoStore 7 ⟨42, some 55, 3, [], none⟩ 4 9).1
  · exact (createReport_scoutId_from_token demoStore 7 ⟨42, some 55, 3, [], none⟩ 4 9).2.2
      (by decide)

/-- C10: updating a present player overwrites name, position, jerseyNumber
and teamId with the supplied values (createdAt and id preserved), and it
succeeds even when no team with the supplied teamId exists — the player can
be reassigned to a nonexistent team.  Unknown player id: 404, store
unchanged. -/
theorem updatePlayer_overwrites_all_fields (s : Store) (id : Nat)
    (name position jerseyNumber : String) (teamId : Nat) :
    (∀ p, s.players.find? (fun x => x.id == id) = some p →
      (updatePlayer s id name position jerseyNumber teamId).2 =
        Except.ok { p with name := name, position := position,
                           jerseyNumber := jerseyNumber, teamId := teamId } ∧
      ((∀ t ∈ s.teams, t.id ≠ teamId) →
        ∃ p', (updatePlayer s id name position jerseyNumber teamId).2 =
            Except.ok p' ∧ p'.teamId = teamId ∧
          p' ∈ (updatePlayer s id name position jerseyNumber teamId).1.players)) ∧
    (s.players.find? (fun x => x.id == id) = none →
      updatePlayer s id name position jerseyNumber teamId =
        (s, Except.error ⟨404, "Player not found"⟩)) := by
  constructor
  · intro p hp
    constructor
    · simp [updatePlayer, hp]
    · intro _
      refine ⟨{ p with name := name, position := position,
                       jerseyNumber := jerseyNumber, teamId := teamId },
              ?_, rfl, ?_⟩
      · simp [updatePlayer, hp]
      · simp only [updatePlayer, hp]
        have hmem := List.mem_map_of_mem
          (fun x : Player => if x.id == id then
            { p with name := name, position := position,
                     jerseyNumber := jerseyNumber, teamId := teamId } else x)
          (List.mem_of_find?_eq_some hp)
        have hpid := List.find?_some hp
        simpa [hpid] using hmem
  · intro h
    simp [updatePlayer, h]

/-- C10 witness: player 1 is reassigned to nonexistent team 42 with all four
fields replaced; absent player 99 gives 404 with the store unchanged. -/
theorem updatePlayer_overwrites_all_fields_witness :
    (updatePlayer demoStore 1 ("Al") "SS" "3" 42).2 =
      Except.ok ⟨1, "Al", "SS", "3", 42, 0⟩ ∧
    updatePlayer demoStore 99 ("Al") "SS" "3" 42 =
      (demoStore, Except.error ⟨404, "Player not found"⟩) := by
  constructor
  · exact ((updatePlayer_overwrites_all_fields demoStore 1 ("Al") "SS" "3" 42).1
      ⟨1, "Ann", "C", "7", 1, 0⟩ (by rfl)).1
  · exact (updatePlayer_overwrites_all_fields demoStore 99 ("Al") "SS" "3" 42).2 (by rfl)

/-- URL under which an uploaded file is served, as the handler builds it. -/
def sprayUrl (fname : String) : String := "/uploads/" ++ fname

/-- POST `/api/upload/spray-chart/:reportId`.  Multer has already written the
file (modelled by appending its name to `storage`); the handler then runs
`findByIdAndUpdate` on the report.  Missing file: 400.  Unknown report:
`fs.unlinkSync` removes the just-written file and the handler returns 404.
Success: the report's sprayChartUrl is overwritten and updatedAt refreshed;
no old file is ever deleted on this path. -/
def uploadSprayChart (s : Store) (reportId : Nat) (file : Option String)
    (now : Nat) : Store × Except ApiError String :=
  match file with
  | none => (s, Except.error ⟨400, "No file uploaded"⟩)
  | some fname =>
    let stored : Store := { s with storage := s.storage ++ [fname] }
    match stored.reports.find? (fun r => r.id == reportId) with
    | none =>
      ({ stored with storage := stored.storage.erase fname },
       Except.error ⟨404, "Report not found"⟩)
    | some r =>
      let r' : Report :=
        { r with sprayChartUrl := some (sprayUrl fname), updatedAt := now }
      ({ stored with
          reports := stored.reports.map (fun x => if x.id == reportId then r' else x) },
       Except.ok (sprayUrl fname))

/-- A left-cancellation fact for string append, used to tell the new spray
chart URL apart from the old one. -/
theorem string_append_left_cancel (s t u : String) (h : s ++ t = s ++ u) :
    t = u := by
  have hd : s.data ++ t.data = s.data ++ u.data := by
    have := congrArg String.data h
    simpa [String.data_append] using this
  have := List.append_cancel_left hd
  cases t
  cases u
  exact congrArg String.mk this

/-- C5: an upload with no file fails with 400 and changes nothing; an upload
of a fresh file against an unknown reportId fails with 404 and the store —
file storage included — ends exactly as it started; in general a failing
upload never leaves the fresh file in storage. -/
theorem uploadSprayChart_failure_no_orphan (s : Store) (reportId : Nat)
    (fname : String) (now : Nat) :
    (uploadSprayChart s reportId none now =
      (s, Except.error ⟨400, "No file uploaded"⟩)) ∧
    (fname ∉ s.storage → (∀ r ∈ s.reports, r.id ≠ reportId) →
      uploadSprayChart s reportId (some fname) now =
        (s, Except.error ⟨404, "Report not found"⟩)) ∧
    (fname ∉ s.storage →
      ∀ e, (uploadSprayChart s reportId (some fname) now).2 = Except.error e →
        fname ∉ (uploadSprayChart s reportId (some fname) now).1.storage) := by
  have herase : fname ∉ s.storage → (s.storage ++ [fname]).erase fname = s.storage := by
    intro hf
    rw [List.erase_append_right _ hf]
    simp
  refine ⟨rfl, ?_, ?_⟩
  · intro hf hnone
    have hfind : s.reports.find? (fun x => x.id == reportId) = none := by
      apply List.find?_eq_none.mpr
      intro x hx
      simpa using hnone x hx
    simp only [uploadSprayChart, hfind]
    rw [Prod.mk.injEq]
    refine ⟨?_, rfl⟩
    cases s
    simp_all
  · intro hf e herr
    cases hfind : s.reports.find? (fun x => x.id == reportId) with
    | none =>
      simp only [uploadSprayChart, hfind]
      rw [herase hf]
      exact hf
    | some r =>
      simp only [uploadSprayChart, hfind] at herr
      cases herr

/-- C5 witness: the theorem applied to the sample store with a fresh file
name "c.png" and the absent report id 99: the upload fails with 404 and the
whole store (storage included) is unchanged, and "c.png" is not in the
post-state storage. -/
theorem uploadSprayChart_failure_no_orphan_witness :
    uploadSprayChart demoStore 99 (some ("c.png")) 9 =
      (demoStore, Except.error ⟨404, "Report not found"⟩) ∧
    "c.png" ∉ (uploadSprayChart demoStore 99 (some ("c.png")) 9).1.storage := by
  constructor
  · exact (uploadSprayChart_failure_no_orphan demoStore 99 ("c.png") 9).2.1
      (by decide) (by decide)
  · exact (uploadSprayChart_failure_no_orphan demoStore 99 ("c.png") 9).2.2
      (by decide) ⟨404, "Report not found"⟩
      (by rw [(uploadSprayChart_failure_no_orphan demoStore 99 ("c.png") 9).2.1
                (by decide) (by decide)])

/-- A second sample store for the repeat-upload scenario: report 1 already
references the stored file "old.png" through its sprayChartUrl. -/
def demoStoreWithChart : Store :=
  { users := [⟨1, "coach@x.com", "h", "coach", 0⟩],
    teams := [⟨1, "Tigers", "AA", 1, 0⟩],
    players := [⟨1, "Ann", "C", "7", 1, 0⟩],
    reports := [⟨1, 1, 1, 5, [], none, some (sprayUrl ("old.png")), 0, 0⟩],
    storage := ["old.png"] }

/-- C9: a successful repeat upload on a report that already references a
stored file overwrites the reference with the new file's URL and does not
delete the old file, so the old file stays in storage while no report
references it any more. -/
theorem uploadSprayChart_success_orphans_old_file (s : Store) (reportId : Nat)
    (fname oldFile : String) (now : Nat) (r : Report)
    (hfind : s.reports.find? (fun x => x.id == reportId) = some r)
    (hfresh : fname ∉ s.storage)
    (holdmem : oldFile ∈ s.storage)
    (huniq : ∀ x ∈ s.reports, x.sprayChartUrl = some (sprayUrl oldFile) →
      x.id = reportId) :
    (uploadSprayChart s reportId (some fname) now).2 =
      Except.ok (sprayUrl fname) ∧
    oldFile ∈ (uploadSprayChart s reportId (some fname) now).1.storage ∧
    (∀ x ∈ (uploadSprayChart s reportId (some fname) now).1.reports,
      x.id = reportId → x.sprayChartUrl = some (sprayUrl fname)) ∧
    (∀ x ∈ (uploadSprayChart s reportId (some fname) now).1.reports,
      x.sprayChartUrl ≠ some (sprayUrl oldFile)) := by
  have hne : oldFile ≠ fname := fun h => hfresh (h ▸ holdmem)
  have hurlne : sprayUrl fname ≠ sprayUrl oldFile := by
    intro h
    exact hne (string_append_left_cancel ("/uploads/") fname oldFile h).symm
  refine ⟨?_, ?_, ?_, ?_⟩
  · simp [uploadSprayChart, hfind]
  · simp only [uploadSprayChart, hfind]
    exact List.mem_append_left _ holdmem
  · intro x hx hxid
    simp only [uploadSprayChart, hfind] at hx
    rcases List.mem_map.mp hx with ⟨y, hy, hyx⟩
    by_cases hc : y.id == reportId
    · rw [if_pos hc] at hyx
      rw [← hyx]
    · rw [if_neg hc] at hyx
      exact absurd (hyx ▸ hxid) (by simpa using hc)
  · intro x hx
    simp only [uploadSprayChart, hfind] at hx
    rcases List.mem_map.mp hx with ⟨y, hy, hyx⟩
    by_cases hc : y.id == reportId
    · rw [if_pos hc] at hyx
      rw [← hyx]
      simpa using hurlne
    · rw [if_neg hc] at hyx
      intro hurl
      have hid := huniq y hy (hyx ▸ hurl)
      exact absurd hid (by simpa using hc)

/-- C9 witness: uploading "new.png" for report 1 of the chart-bearing sample
store succeeds, keeps "old.png" in storage, rewrites the report's URL to the
new file and leaves no report referencing the old URL. -/
theorem uploadSprayChart_success_orphans_old_file_witness :
    (uploadSprayChart demoStoreWithChart 1 (some ("new.png")) 9).2 =
      Except.ok (sprayUrl ("new.png")) ∧
    "old.png" ∈ (uploadSprayChart demoStoreWithChart 1 (some ("new.png")) 9).1.storage ∧
    (∀ x ∈ (uploadSprayChart demoStoreWithChart 1 (some ("new.png")) 9).1.reports,
      x.sprayChartUrl ≠ some (sprayUrl ("old.png"))) := by
  have huq : ∀ x ∈ demoStoreWithChart.reports,
      x.sprayChartUrl = some (sprayUrl ("old.png")) → x.id = 1 := by
    intro x hx _
    have hxeq : x = (⟨1, 1, 1, 5, [], none, some (sprayUrl ("old.png")), 0, 0⟩ : Report) := by
      simpa [demoStoreWithChart] using hx
    rw [hxeq]
  have h := uploadSprayChart_success_orphans_old_file demoStoreWithChart 1
    "new.png" "old.png" 9 ⟨1, 1, 1, 5, [], none, some (sprayUrl ("old.png")), 0, 0⟩
    (by rfl) (by decide) (by decide) huq
  exact ⟨h.1, h.2.1, h.2.2.2⟩

/-- Rate limiter configuration as `createRateLimiter(windowMs, max, message)`
builds it in `src/backend/middleware.js`. -/
structure RateLimiter where
  windowMs : Nat
  max : Nat
  message : String
deriving DecidableEq, Repr

/-- Body of the 429 response the custom handler sends, with `retryAfter`
being `Math.round(windowMs / 1000)` (all four configured windows are whole
seconds, so rounding is exact division). -/
structure RateResponse where
  status : Nat
  error : String
  retryAfter : Nat
deriving DecidableEq, Repr

/-- Per-client limiter state: when the current window began and how many
hits it has seen. -/
structure LimiterState where
  windowStart : Nat
  hits : Nat
deriving DecidableEq, Repr

/-- The `createRateLimiter` factory. -/
def createRateLimiter (windowMs max : Nat) (message : String) : RateLimiter :=
  ⟨windowMs, max, message⟩

/-- The rejection the custom `handler` sends: status 429, the configured
message, and a retryAfter of the FULL window in seconds. -/
def rejectResponse (l : RateLimiter) : RateResponse :=
  ⟨429, l.message, l.windowMs / 1000⟩

/-- Seconds left in the client's current window at time `now` — what the
spec says the hint should be. -/
def remainingSeconds (l : RateLimiter) (st : LimiterState) (now : Nat) : Nat :=
  (st.windowStart + l.windowMs - now) / 1000

/-- One request through a limiter: reset the window if it has expired,
count the hit, and reject once the count exceeds `max`. -/
def limiterStep (l : RateLimiter) (st : LimiterState) (now : Nat) :
    LimiterState × Option RateResponse :=
  let st1 := if st.windowStart + l.windowMs ≤ now then (⟨now, 0⟩ : LimiterState) else st
  let st2 : LimiterState := ⟨st1.windowStart, st1.hits + 1⟩
  if l.max < st2.hits then (st2, some (rejectResponse l)) else (st2, none)

/-- A sequence of requests through one limiter, returning the final state
and the per-request outcome (`none` = admitted). -/
def runLimiter (l : RateLimiter) (st : LimiterState) :
    List Nat → LimiterState × List (Option RateResponse)
  | [] => (st, [])
  | t :: ts =>
    let s1 := limiterStep l st t
    let rest := runLimiter l s1.1 ts
    (rest.1, s1.2 :: rest.2)

/-! The four limiters of `src/backend/middleware.js`, with the exact window,
ceiling and message of each. -/

namespace rateLimiters

def general : RateLimiter :=
  createRateLimiter (15 * 60 * 1000) 100 ("Too many requests, please try again later")

def auth : RateLimiter :=
  createRateLimiter (15 * 60 * 1000) 5 ("Too many authentication attempts, please try again later")

def upload : RateLimiter :=
  createRateLimiter (60 * 60 * 1000) 10 ("Too many file uploads, please try again later")

def register : RateLimiter :=
  createRateLimiter (24 * 60 * 60 * 1000) 3 ("Too many registration attempts, please try again tomorrow")

end rateLimiters

/-- Requests that all fall inside the current window neither reset it nor
escape the count: outcome `i` is admission exactly while `hits + i` is below
the ceiling, and the window start is stable while hits grow by one each. -/
theorem runLimiter_window_outcomes (l : RateLimiter) (ts : List Nat) :
    ∀ st : LimiterState, (∀ t ∈ ts, t < st.windowStart + l.windowMs) →
      (runLimiter l st ts).2 = (List.range ts.length).map (fun i =>
        if st.hits + i < l.max then none else some (rejectResponse l)) ∧
      (runLimiter l st ts).1.windowStart = st.windowStart ∧
      (runLimiter l st ts).1.hits = st.hits + ts.length := by
  induction ts with
  | nil =>
    intro st _
    simp [runLimiter]
  | cons t ts ih =>
    intro st h
    have ht : t < st.windowStart + l.windowMs := h t (List.mem_cons_self t ts)
    have hreset : ¬ (st.windowStart + l.windowMs ≤ t) := Nat.not_le.mpr ht
    have hstep : limiterStep l st t =
        ((⟨st.windowStart, st.hits + 1⟩ : LimiterState),
         if st.hits < l.max then none else some (rejectResponse l)) := by
      by_cases hc : st.hits < l.max
      · have : ¬ (l.max < st.hits + 1) := by omega
        simp [limiterStep, hreset, this, hc]
      · have : l.max < st.hits + 1 := by omega
        simp [limiterStep, hreset, this, hc]
    obtain ⟨h1, h2, h3⟩ := ih ⟨st.windowStart, st.hits + 1⟩
      (fun x hx => by simpa using h x (List.mem_cons_of_mem _ hx))
    refine ⟨?_, ?_, ?_⟩
    · show (limiterStep l st t).2 :: (runLimiter l (limiterStep l st t).1 ts).2 = _
      rw [hstep]
      simp only [h1, List.length_cons, List.range_succ_eq_map, List.map_cons,
        List.map_map]
      congr 1
      simp only [List.map_inj_left, List.mem_range, Function.comp_apply,
        Nat.succ_eq_add_one]
      intro a ha
      split_ifs <;> first | rfl | omega
    · show (runLimiter l (limiterStep l st t).1 ts).1.windowStart = _
      rw [hstep]
      exact h2
    · show (runLimiter l (limiterStep l st t).1 ts).1.hits = _
      rw [hstep, h3]
      simp [List.length_cons]
      omega

/-- From a fresh window state, outcome `i` of an in-window request burst is
admission exactly when `i` is below the ceiling, rejection otherwise. -/
theorem runLimiter_get?_fresh (l : RateLimiter) (st : LimiterState)
    (ts : List Nat) (hw : ∀ t ∈ ts, t < st.windowStart + l.windowMs)
    (h0 : st.hits = 0) (i : Nat) (hi : i < ts.length) :
    (runLimiter l st ts).2.get? i =
      some (if i < l.max then none else some (rejectResponse l)) := by
  obtain ⟨h1, _, _⟩ := runLimiter_window_outcomes l ts st hw
  rw [h1, List.get?_map, List.get?_range hi]
  simp [h0]

/-- C7: per client and per window, the auth limiter admits at most 5 requests
(the 6th is the 429 rejection), the general limiter at most 100 per 15
minutes, the register limiter at most 3 per 24 hours, and the upload limiter
at most 10 per hour; each rejection is the limiter's 429 response. -/
theorem rateLimiters_ceilings (st : LimiterState) (ts : List Nat)
    (h0 : st.hits = 0) :
    ((∀ t ∈ ts, t < st.windowStart + 15 * 60 * 1000) → ∀ i < ts.length,
      (runLimiter rateLimiters.auth st ts).2.get? i =
        some (if i < 5 then none else some (rejectResponse rateLimiters.auth)) ∧
      (runLimiter rateLimiters.general st ts).2.get? i =
        some (if i < 100 then none else some (rejectResponse rateLimiters.general))) ∧
    ((∀ t ∈ ts, t < st.windowStart + 24 * 60 * 60 * 1000) → ∀ i < ts.length,
      (runLimiter rateLimiters.register st ts).2.get? i =
        some (if i < 3 then none else some (rejectResponse rateLimiters.register))) ∧
    ((∀ t ∈ ts, t < st.windowStart + 60 * 60 * 1000) → ∀ i < ts.length,
      (runLimiter rateLimiters.upload st ts).2.get? i =
        some (if i < 10 then none else some (rejectResponse rateLimiters.upload))) ∧
    (rejectResponse rateLimiters.auth).status = 429 ∧
    (rejectResponse rateLimiters.general).status = 429 ∧
    (rejectResponse rateLimiters.register).status = 429 ∧
    (rejectResponse rateLimiters.upload).status = 429 := by
  refine ⟨?_, ?_, ?_, rfl, rfl, rfl, rfl⟩
  · intro hw i hi
    exact ⟨runLimiter_get?_fresh rateLimiters.auth st ts hw h0 i hi,
           runLimiter_get?_fresh rateLimiters.general st ts hw h0 i hi⟩
  · intro hw i hi
    exact runLimiter_get?_fresh rateLimiters.register st ts hw h0 i hi
  · intro hw i hi
    exact runLimiter_get?_fresh rateLimiters.upload st ts hw h0 i hi

/-- C7 witness: from a fresh state, the 5th login attempt is admitted and
the 6th rejected; the 101st general request, the 4th registration and the
11th upload are rejected. -/
theorem rateLimiters_ceilings_witness :
    (runLimiter rateLimiters.auth ⟨0, 0⟩ (List.replicate 6 0)).2.get? 4 =
      some none ∧
    (runLimiter rateLimiters.auth ⟨0, 0⟩ (List.replicate 6 0)).2.get? 5 =
      some (some (rejectResponse rateLimiters.auth)) ∧
    (runLimiter rateLimiters.general ⟨0, 0⟩ (List.replicate 101 0)).2.get? 100 =
      some (some (rejectResponse rateLimiters.general)) ∧
    (runLimiter rateLimiters.register ⟨0, 0⟩ (List.replicate 4 0)).2.get? 3 =
      some (some (rejectResponse rateLimiters.register)) ∧
    (runLimiter rateLimiters.upload ⟨0, 0⟩ (List.replicate 11 0)).2.get? 10 =
      some (some (rejectResponse rateLimiters.upload)) := by
  have h6 := rateLimiters_ceilings ⟨0, 0⟩ (List.replicate 6 0) rfl
  have h101 := rateLimiters_ceilings ⟨0, 0⟩ (List.replicate 101 0) rfl
  have h4 := rateLimiters_ceilings ⟨0, 0⟩ (List.replicate 4 0) rfl
  have h11 := rateLimiters_ceilings ⟨0, 0⟩ (List.replicate 11 0) rfl
  refine ⟨?_, ?_, ?_, ?_, ?_⟩
  · have := (h6.1 (by simp) 4 (by simp)).1
    simpa using this
  · have := (h6.1 (by simp) 5 (by simp)).1
    simpa using this
  · have := (h101.1 (by simp) 100 (by simp)).2
    simpa using this
  · have := h4.2.1 (by simp) 3 (by simp)
    simpa using this
  · have := h11.2.2.1 (by simp) 10 (by simp)
    simpa using this

/-- C2 counterexample: five login attempts at time 0 fill the auth window;
the rejection of the next attempt at minute one carries retryAfter 900 — the
full 15-minute window — while only 840 seconds of the client's window
actually remain, so the hint is a fixed constant and not the remaining
window duration. -/
theorem rateLimiter_retryAfter_counterexample :
    (runLimiter rateLimiters.auth ⟨0, 0⟩ [0, 0, 0, 0, 0]).1 =
      (⟨0, 5⟩ : LimiterState) ∧
    (limiterStep rateLimiters.auth ⟨0, 5⟩ 60000).2 =
      some ⟨429, "Too many authentication attempts, please try again later", 900⟩ ∧
    remainingSeconds rateLimiters.auth ⟨0, 5⟩ 60000 = 840 ∧
    (900 : Nat) ≠ 840 := by
  refine ⟨rfl, rfl, rfl, by decide⟩

/-- C2 amended: every rejection a limiter emits is the 429 response carrying
the configured message and a retryAfter equal to the FULL window length in
seconds (`Math.round(windowMs / 1000)`), independent of how much of the
client's window has already elapsed. -/
theorem limiterStep_retryAfter_full_window (l : RateLimiter)
    (st : LimiterState) (now : Nat) (resp : RateResponse)
    (h : (limiterStep l st now).2 = some resp) :
    resp.status = 429 ∧ resp.error = l.message ∧
    resp.retryAfter = l.windowMs / 1000 := by
  by_cases hc : l.max <
      (if st.windowStart + l.windowMs ≤ now then (⟨now, 0⟩ : LimiterState) else st).hits + 1
  · simp only [limiterStep, hc, if_true, if_pos] at h
    have : rejectResponse l = resp := by
      simpa using h
    rw [← this]
    exact ⟨rfl, rfl, rfl⟩
  · simp only [limiterStep] at h
    rw [if_neg hc] at h
    cases h

/-- C2 amended witness: the theorem applied to the over-limit auth state at
time 0, where the rejection indeed reports 429, the auth message and 900
seconds (the whole window). -/
theorem limiterStep_retryAfter_full_window_witness :
    (rejectResponse rateLimiters.auth).status = 429 ∧
    (rejectResponse rateLimiters.auth).error =
      "Too many authentication attempts, please try again later" ∧
    (rejectResponse rateLimiters.auth).retryAfter =
      rateLimiters.auth.windowMs / 1000 :=
  limiterStep_retryAfter_full_window rateLimiters.auth ⟨0, 5⟩ 0
    (rejectResponse rateLimiters.auth) (by rfl)
